import Mathlib

/-!
# Verification of the feed-aggregation worker (`pmwals09/blog-aggregator`)

Shallow embedding of the concurrency-relevant core of `src/main.go`
(`getFeedsWorker`, the task wrapper around `getFeed`, `middlewareAuth`) and of the
per-entry post construction (lines 426-446).

Modelling conventions:
* Go `time.Time` instants are `Int` (nanoseconds since epoch); the zero
  `time.Time` value is `0`.  Each call to `time.Now()` inside a tick is
  modelled by the single tick-start instant `now`.
* `sql.NullString` / `sql.NullTime` are structures with a payload and a
  `valid` flag, exactly as in `database/sql`.
* `uuid.UUID` feed identities are `Nat`.
* The Go standard-library RFC1123Z parser `time.Parse(time.RFC1123Z, s)` is
  an external collaborator: it is a parameter `parse : String → Option Int`
  (`none` = parse error, in which case Go returns the zero `time.Time`,
  modelled by `(parse s).getD 0`).
* The database layer (`internal/database`, generated code outside the
  worker) is an external collaborator: the interaction of the worker with it is
  recorded as a trace of `StoreCall`s, and the per-call results the worker
  reads are oracle parameters (`batchResult`, `insertOutcome`).
* Channel communication of `getFeedsWorker` is modelled explicitly: the pending sends of each
  spawned goroutine (in program order: error channel first
  on a failed fetch, then the result channel) form a queue, the unbuffered
  channels mean a send is consumed only by a matching receive, and the
  single `select` of each loop iteration consumes exactly one ready
  communication, chosen by a nondeterministic `Arrival` parameter.
-/

/-- Go `sql.NullString`. -/
structure NullString where
  str : String
  valid : Bool
deriving DecidableEq, Repr

/-- Go `sql.NullTime`. -/
structure NullTime where
  time : Int
  valid : Bool
deriving DecidableEq, Repr

/-- One `<item>` of the unmarshalled RSS document (`feedData.Channel.Item`). -/
structure Item where
  title : String
  link : String
  pubDate : String
  guid : String
  descr : String
deriving DecidableEq, Repr

/-- The fields of the unmarshalled `feedData` that the worker reads:
the ordered item list and the `FeedID` stamped onto it by the task. -/
structure FeedData where
  channelTitle : String
  items : List Item
  feedID : Nat
deriving DecidableEq, Repr

/-- The fields of `database.Feed` the worker reads. -/
structure Feed where
  id : Nat
  name : String
  url : String
  lastFetchedAt : Option Int
deriving DecidableEq, Repr

/-- Go `database.CreatePostParams` (the generated `ID : uuid.UUID` is fresh
randomness the worker never reads back and is omitted). -/
structure CreatePostParams where
  createdAt : Int
  updatedAt : Int
  title : String
  url : String
  feedID : Nat
  descr : NullString
  publishedAt : NullTime
deriving DecidableEq, Repr

/-- Lines 426-446 of `src/main.go`: construction of the `CreatePostParams`
for one item, as a sequence of rebindings exactly mirroring the Go
assignments (including the two unconditional overwrites on lines 437 and
446).  `parse` is `time.Parse(time.RFC1123Z, ·)`; on failure Go returns the
zero time, hence `(parse _).getD 0`. -/
def mkCreatePostParams (parse : String → Option Int) (now : Int)
    (feedID : Nat) (item : Item) : CreatePostParams :=
  -- lines 426-433: struct literal; unset fields take Go zero values
  let createParams : CreatePostParams :=
    { createdAt := now, updatedAt := now, title := item.title,
      url := item.link, feedID := feedID,
      descr := ⟨"", false⟩, publishedAt := ⟨0, false⟩ }
  -- lines 434-436
  let createParams :=
    if item.descr ≠ "" then
      { createParams with descr := ⟨item.descr, true⟩ }
    else createParams
  -- line 437: unconditional overwrite
  let createParams := { createParams with descr := ⟨"", false⟩ }
  -- lines 439-441
  let createParams :=
    if item.pubDate = "" then
      { createParams with publishedAt := ⟨now, false⟩ }
    else createParams
  -- line 442: pubTime is the zero time when parsing fails
  let pubTime : Int := (parse item.pubDate).getD 0
  -- lines 443-445
  let createParams :=
    if (parse item.pubDate).isNone then
      { createParams with publishedAt := ⟨now, false⟩ }
    else createParams
  -- line 446: unconditional overwrite
  { createParams with publishedAt := ⟨pubTime, true⟩ }

/-- One operation the worker issues against the database layer.
`markFetched` is the Feed Store operation `markFetched(feedID, timestamp)`
operation (`last_fetched_at` update); it is part of the store interface
but, as the theorems show, never emitted by this worker. -/
inductive StoreCall where
  | getNextFeeds (limit : Nat)
  | createPost (p : CreatePostParams)
  | markFetched (feedID : Nat) (t : Int)
deriving DecidableEq, Repr

/-- Lines 424-449 of `src/main.go`: the per-item ingestion loop of the
`feed := <-feedChan` select case.  `insertOutcome` is the database
response to each `CreatePost`; the Go code discards both return values of
`ac.DB.CreatePost`, which the `let _ :=` mirrors: the loop continues
unconditionally. -/
def ingestLoop (parse : String → Option Int) (now : Int) (feedID : Nat)
    (insertOutcome : CreatePostParams → Except String Unit) :
    List Item → List StoreCall
  | [] => []
  | item :: rest =>
    let p := mkCreatePostParams parse now feedID item
    let _ := insertOutcome p
    StoreCall.createPost p :: ingestLoop parse now feedID insertOutcome rest

/-- Whitespace in the sense of the Go `unicode.IsSpace` over the ASCII
range (space, tab, newline, vertical tab, form feed, carriage return). -/
def isGoSpace (c : Char) : Bool :=
  c == ' ' || c == '\t' || c == '\n' || c == '\r' ||
    c == Char.ofNat 11 || c == Char.ofNat 12

/-- Scanner of the Go `strings.Fields`: walk the characters keeping the
current field accumulator (reversed); whitespace closes a nonempty field. -/
def fieldsAux : List Char → List Char → List String
  | [], acc => if acc.isEmpty then [] else [String.mk acc.reverse]
  | c :: cs, acc =>
    if isGoSpace c then
      if acc.isEmpty then fieldsAux cs []
      else String.mk acc.reverse :: fieldsAux cs []
    else fieldsAux cs (c :: acc)

/-- The Go `strings.Fields`: the maximal runs of non-whitespace characters
of `s`, in order. -/
def goFields (s : String) : List String := fieldsAux s.data []

/-- Observable outcome of the authentication wrapper: a 401 response or a
call of the wrapped handler with the looked-up user. -/
inductive AuthResult where
  | unauthorized
  | ok (user : String)
deriving DecidableEq, Repr

/-- Lines 59-80 of `src/main.go` (`(*apiConfig).middlewareAuth`), whose
body is identical to the inline check of `handleUsersGet` in the second
source file.  `lookup` is `ac.DB.GetUserByApiKey`.  The Go code reads
`fields[0]` and `fields[1]` without a length check; when `fields` has
fewer than two elements that read panics, modelled by `none`. -/
def middlewareAuth (lookup : String → Option String)
    (authorization : String) : Option AuthResult :=
  if authorization = "" then some .unauthorized
  else
    match goFields authorization with
    | name :: key :: _ =>
      if name ≠ "ApiKey" then some .unauthorized
      else
        match lookup key with
        | none => some .unauthorized
        | some u => some (.ok u)
    | _ => none

/-- A message a spawned goroutine sends, tagged with the channel it is sent
on (`errorChan` or `feedChan` of `getFeedsWorker`). -/
inductive Msg where
  | onErrorChan (e : String)
  | onFeedChan (d : FeedData)
deriving DecidableEq, Repr

/-- Lines 405-413 of `src/main.go`: the body of the per-feed goroutine.
`fetch` is `getFeed`: for a URL it yields the unmarshalled document and
`some e` when `getFeed` returned an error (in which case the returned
document is whatever partially-filled value `getFeed` produced).  The task
stamps `FeedID`, on error first sends on `errorChan`, and in every case
then sends the document on `feedChan`.  The returned list is the send
sequence of the task in program order. -/
def taskSends (fetch : String → FeedData × Option String) (f : Feed) :
    List Msg :=
  let r := fetch f.url
  let fd := { r.fst with feedID := f.id }
  match r.snd with
  | some e => [Msg.onErrorChan e, Msg.onFeedChan fd]
  | none => [Msg.onFeedChan fd]

/-- Which of the ready communications the single `select` of the tick takes:
the head message of the pending send queue of task `j`, or the `done`
signal of the `g`-th still-unconsumed tick group (sent once the `WaitGroup`
of that group has been fully drained). -/
inductive Arrival where
  | fromTask (j : Nat)
  | doneGroup (g : Nat)
deriving DecidableEq, Repr

/-- State the worker loop carries between iterations: the remaining send
queues of every goroutine spawned so far (unbuffered channels: a goroutine
blocks until each of its sends is received), and for each past iteration
whose `done` signal has not yet been consumed, the indices of its tasks. -/
structure WorkerState where
  tasks : List (List Msg)
  groups : List (List Nat)
deriving DecidableEq, Repr

/-- The `wg.Wait()` of a tick group has returned: every task of the group has
finished all its sends. -/
def groupDone (tasks : List (List Msg)) (g : List Nat) : Bool :=
  g.all (fun i => (tasks.getD i []).isEmpty)

/-- Everything external one loop iteration of `getFeedsWorker` consumes:
the Feed Store answer to `GetNextFeedsToFetch` (error = tick aborted),
the network/parse outcome per URL, the Post Store answer per insertion,
the choice of the `select` among ready communications, and the tick instant. -/
structure TickEnv where
  batchResult : Except String (List Feed)
  fetch : String → FeedData × Option String
  insertOutcome : CreatePostParams → Except String Unit
  arrival : Arrival
  now : Int

/-- Lines 394-452 of `src/main.go`: one iteration of the `for range
time.Tick` loop.  Returns the successor worker state, the trace of store
calls the iteration issued, and whether the iteration executed `break` at
line 398 (exiting the loop).

The iteration: calls `GetNextFeedsToFetch(10)`; on error logs and breaks.
Otherwise spawns one goroutine per feed (appending their send queues and
recording the new `WaitGroup` group), then performs ONE `select` that
consumes exactly one ready communication: an `errorChan` message is only
logged, a `feedChan` message has the items of its document ingested via the
`CreatePost` loop, and a `done` signal does nothing (its `break` only
leaves the `select`).  An `Arrival` that denotes no ready communication
(exhausted queue / group not done) consumes nothing. -/
def getFeedsWorkerTick (parse : String → Option Int) (st : WorkerState)
    (env : TickEnv) : WorkerState × List StoreCall × Bool :=
  match env.batchResult with
  | .error _ => (st, [StoreCall.getNextFeeds 10], true)
  | .ok feeds =>
    let newTasks := feeds.map (taskSends env.fetch)
    let base := st.tasks.length
    let tasks1 := st.tasks ++ newTasks
    let groups1 := st.groups ++ [(List.range feeds.length).map (· + base)]
    match env.arrival with
    | .fromTask j =>
      match tasks1.getD j [] with
      | [] => (⟨tasks1, groups1⟩, [StoreCall.getNextFeeds 10], false)
      | msg :: restMsgs =>
        let tasks2 := tasks1.set j restMsgs
        match msg with
        | .onErrorChan _ =>
          (⟨tasks2, groups1⟩, [StoreCall.getNextFeeds 10], false)
        | .onFeedChan d =>
          (⟨tasks2, groups1⟩,
           StoreCall.getNextFeeds 10 ::
             ingestLoop parse env.now d.feedID env.insertOutcome d.items,
           false)
    | .doneGroup g =>
      if groupDone tasks1 (groups1.getD g []) then
        (⟨tasks1, groups1.eraseIdx g⟩, [StoreCall.getNextFeeds 10], false)
      else
        (⟨tasks1, groups1⟩, [StoreCall.getNextFeeds 10], false)

/-- The `for range time.Tick(time.Minute)` loop of `getFeedsWorker`,
iterated over a finite prefix of tick environments: each iteration runs
`getFeedsWorkerTick`; a `break` ends the loop (and with it the worker
goroutine — the rest of the process is untouched).  Returns the per-tick
store-call traces of the iterations that ran. -/
def getFeedsWorker (parse : String → Option Int) :
    WorkerState → List TickEnv → List (List StoreCall)
  | _, [] => []
  | st, env :: rest =>
    let r := getFeedsWorkerTick parse st env
    if r.2.2 then [r.2.1]
    else r.2.1 :: getFeedsWorker parse r.1 rest

/-- The observable Feed Store state the claims talk about: per feed the
`last_fetched_at` column. -/
structure StoreState where
  lastFetchedAt : Nat → Option Int

/-- Effect of one store call on the Feed Store state: only `markFetched`
writes `last_fetched_at`. -/
def applyCall (s : StoreState) : StoreCall → StoreState
  | .markFetched fid t =>
    ⟨fun i => if i = fid then some t else s.lastFetchedAt i⟩
  | _ => s

/-- Effect of a trace of store calls, in order. -/
def applyCalls (s : StoreState) (cs : List StoreCall) : StoreState :=
  cs.foldl applyCall s

/-- True exactly on `createPost` calls. -/
def isCreatePost : StoreCall → Bool
  | .createPost _ => true
  | _ => false

/-- True exactly on `markFetched` calls. -/
def isMarkFetched : StoreCall → Bool
  | .markFetched _ _ => true
  | _ => false

/-- True on `createPost` calls whose post belongs to feed `fid`. -/
def isPostFor (fid : Nat) : StoreCall → Bool
  | .createPost p => p.feedID == fid
  | _ => false

/-- A concrete RSS item with neither publish date nor description. -/
def sampleItem (n : Nat) : Item :=
  { title := toString n, link := toString n, pubDate := "", guid := toString n,
    descr := "" }

/-- A ten-entry document (the `FeedID` field is stamped later by the task). -/
def docA : FeedData := ⟨"A", (List.range 10).map sampleItem, 0⟩

/-- A one-entry document. -/
def docB : FeedData := ⟨"B", [sampleItem 100], 0⟩

/-- A feed whose URL serves `docA`; `last_fetched_at` currently `5`. -/
def feedA : Feed := ⟨1, "A", "urlA", some 5⟩

/-- A feed whose URL serves `docB`. -/
def feedB : Feed := ⟨2, "B", "urlB", none⟩

/-- A feed with an unreachable URL; `last_fetched_at` currently `7`. -/
def feedFail : Feed := ⟨4, "E", "urlC", some 7⟩

/-- A concrete network: `urlA` and `urlB` fetch and parse successfully;
every other URL fails. -/
def fetchAB : String → FeedData × Option String :=
  fun u =>
    if u = "urlA" then (docA, none)
    else if u = "urlB" then (docB, none)
    else (⟨"", [], 0⟩, some "unreachable")

/-- A concrete RFC1123Z parser outcome: no date string parses. -/
def noParse : String → Option Int := fun _ => none

/-- A concrete Post Store in which every insertion succeeds. -/
def okInsert : CreatePostParams → Except String Unit := fun _ => .ok ()

/-- Tick environment: batch `[feedA, feedB]`, both fetches succeed, the
`select` receives the `feedChan` message of the `feedA` task first. -/
def envAB : TickEnv := ⟨.ok [feedA, feedB], fetchAB, okInsert, .fromTask 0, 100⟩

/-- Tick environment: batch `[feedA]` alone, fetch succeeds, its document
message is received. -/
def envSoloA : TickEnv := ⟨.ok [feedA], fetchAB, okInsert, .fromTask 0, 100⟩

/-- Tick environment whose batch selection fails. -/
def envBad : TickEnv := ⟨.error "db down", fetchAB, okInsert, .fromTask 0, 100⟩

/-- Tick environment for the iteration after `envAB`: `feedB` is selected
again, and the `select` receives the message of the newly spawned task. -/
def envB2 : TickEnv := ⟨.ok [feedB], fetchAB, okInsert, .fromTask 2, 160⟩

/-- Tick environment: batch `[feedFail]`, whose fetch fails; the `select`
receives the `errorChan` message. -/
def envFail : TickEnv := ⟨.ok [feedFail], fetchAB, okInsert, .fromTask 0, 100⟩

/-- Initial Feed Store state matching the fixture feeds. -/
def store0 : StoreState :=
  ⟨fun i => if i = 1 then some 5 else if i = 4 then some 7 else none⟩

/-- A concrete RFC1123Z parser that accepts exactly the reference date
`Mon, 02 Jan 2006 15:04:05 -0700` (that instant in Unix nanoseconds). -/
def parseSample : String → Option Int :=
  fun s =>
    if s = "Mon, 02 Jan 2006 15:04:05 -0700" then some 1136239445000000000
    else none

/-- An item with an empty publish date. -/
def itemNoDate : Item := ⟨"t", "l", "", "g", "some description"⟩

/-- An item whose publish date is the RFC1123Z reference date. -/
def itemGoodDate : Item :=
  ⟨"t", "l", "Mon, 02 Jan 2006 15:04:05 -0700", "g", "some description"⟩

/-- An item whose publish date does not parse as RFC1123Z. -/
def itemBadDate : Item := ⟨"t", "l", "not a date", "g", "some description"⟩

/-- The per-item loop issues exactly one `createPost` per item of the
document, in document order, whatever the insertion outcomes are. -/
lemma ingestLoop_eq_map (parse : String → Option Int) (now : Int) (fid : Nat)
    (o : CreatePostParams → Except String Unit) (items : List Item) :
    ingestLoop parse now fid o items =
      items.map (fun it => StoreCall.createPost (mkCreatePostParams parse now fid it)) := by
  induction items with
  | nil => rfl
  | cons it rest ih => simp [ingestLoop, ih]

/-- A store call other than `markFetched` leaves the Feed Store state as is. -/
lemma applyCall_of_not_mark (s : StoreState) (c : StoreCall)
    (h : isMarkFetched c = false) : applyCall s c = s := by
  cases c <;> simp_all [isMarkFetched, applyCall]

/-- A trace free of `markFetched` leaves the Feed Store state as is. -/
lemma applyCalls_of_not_mark (s : StoreState) (cs : List StoreCall)
    (h : ∀ c ∈ cs, isMarkFetched c = false) : applyCalls s cs = s := by
  induction cs with
  | nil => rfl
  | cons c cs ih =>
    have hc := h c (List.mem_cons_self c cs)
    have := applyCall_of_not_mark s c hc
    simp [applyCalls, List.foldl_cons, this]
    exact ih (fun d hd => h d (List.mem_cons_of_mem c hd))

/-- The ingestion loop emits no `markFetched` call. -/
lemma ingestLoop_not_mark (parse : String → Option Int) (now : Int) (fid : Nat)
    (o : CreatePostParams → Except String Unit) (items : List Item) :
    ∀ c ∈ ingestLoop parse now fid o items, isMarkFetched c = false := by
  intro c hc
  rw [ingestLoop_eq_map] at hc
  obtain ⟨it, _, rfl⟩ := List.mem_map.mp hc
  rfl

/-- Shape of the store-call trace of one tick: the batch-selection call
alone, or the batch-selection call followed by the ingestion of one
document received from `feedChan`. -/
lemma tick_trace_shape (parse : String → Option Int) (st : WorkerState)
    (env : TickEnv) :
    (getFeedsWorkerTick parse st env).2.1 = [StoreCall.getNextFeeds 10] ∨
    ∃ d : FeedData, (getFeedsWorkerTick parse st env).2.1 =
      StoreCall.getNextFeeds 10 ::
        ingestLoop parse env.now d.feedID env.insertOutcome d.items := by
  unfold getFeedsWorkerTick
  split
  · left; rfl
  · split
    · dsimp only
      split
      · left; rfl
      · split
        · left; rfl
        · right; exact ⟨_, rfl⟩
    · dsimp only
      split
      · left; rfl
      · left; rfl

/-- No tick of the worker ever emits a `markFetched` call. -/
lemma tick_not_mark (parse : String → Option Int) (st : WorkerState) (env : TickEnv) :
    ∀ c ∈ (getFeedsWorkerTick parse st env).2.1, isMarkFetched c = false := by
  intro c hc
  rcases tick_trace_shape parse st env with h | ⟨d, h⟩ <;> rw [h] at hc
  · simp at hc; subst hc; rfl
  · simp at hc
    rcases hc with hc | hc
    · subst hc; rfl
    · exact ingestLoop_not_mark _ _ _ _ _ c hc

/-- A whole tick leaves the Feed Store state exactly as it was. -/
lemma tick_preserves_store (parse : String → Option Int) (st : WorkerState)
    (env : TickEnv) (s : StoreState) :
    applyCalls s (getFeedsWorkerTick parse st env).2.1 = s :=
  applyCalls_of_not_mark s _ (tick_not_mark parse st env)

/-- C1: the claim that a tick completes only after every spawned task has
terminated and every entry of every successfully fetched document of the
batch was attempted for insertion fails on the code.  Failing input: fresh
worker, batch `[feedA, feedB]`, both fetches successful (`docA` has 10
entries, `docB` has 1), the `feedA` document arriving first.  The single
`select` of the tick then ingests only the 10 entries of `docA`, attempts
none of `docB` (0 `createPost` calls for feed 2), and the tick ends (no
`break`) while the `feedB` task is still blocked on its unconsumed send. -/
theorem c1_single_select_ingests_one_document :
    (getFeedsWorkerTick noParse ⟨[], []⟩ envAB).2.2 = false ∧
    ((getFeedsWorkerTick noParse ⟨[], []⟩ envAB).2.1.countP (isPostFor 1)) = 10 ∧
    ((getFeedsWorkerTick noParse ⟨[], []⟩ envAB).2.1.countP (isPostFor 2)) = 0 ∧
    (getFeedsWorkerTick noParse ⟨[], []⟩ envAB).1.tasks.getD 1 [] ≠ [] := by decide

/-- C2 counterexample: in a tick starting at instant 100 whose only feed
(id 1, `last_fetched_at = 5`) is fetched and fully ingested (10 posts
persisted), `last_fetched_at` still reads 5 afterwards, not the claimed
tick-start instant 100. -/
theorem c2_counterexample_last_fetched_not_advanced :
    ((getFeedsWorkerTick noParse ⟨[], []⟩ envSoloA).2.1.countP (isPostFor 1)) = 10 ∧
    (applyCalls store0 (getFeedsWorkerTick noParse ⟨[], []⟩ envSoloA).2.1).lastFetchedAt 1
      = some 5 ∧
    (applyCalls store0 (getFeedsWorkerTick noParse ⟨[], []⟩ envSoloA).2.1).lastFetchedAt 1
      ≠ some 100 := by decide

/-- C2 amended: after a feed is fetched and its entries persisted, the
worker leaves `last_fetched_at` unchanged — it never advances it (no tick
issues any `markFetched`), for every feed, tick environment, worker state
and Feed Store state. -/
theorem c2_amended_last_fetched_unchanged (parse : String → Option Int)
    (st : WorkerState) (env : TickEnv) (s : StoreState) (fid : Nat) :
    (applyCalls s (getFeedsWorkerTick parse st env).2.1).lastFetchedAt fid
      = s.lastFetchedAt fid := by
  rw [tick_preserves_store]

/-- C3 counterexample: a failing batch selection followed by a perfectly
healthy tick environment.  The worker runs the failing iteration only: the
`break` on line 398 exits the `for range time.Tick` loop, so the next tick
does not proceed (one trace, not two). -/
theorem c3_counterexample_loop_ends :
    getFeedsWorker noParse ⟨[], []⟩ [envBad, envSoloA] = [[StoreCall.getNextFeeds 10]] ∧
    (getFeedsWorker noParse ⟨[], []⟩ [envBad, envSoloA]).length ≠ 2 := by decide

/-- C3 amended: when the Feed Store cannot return a batch, the failure is
logged and that tick does no further work, but the scheduling loop
terminates: whatever tick environments follow, no further iteration runs
(the rest of the process is untouched; only the worker goroutine exits). -/
theorem c3_amended_batch_error_ends_loop (parse : String → Option Int)
    (st : WorkerState) (env : TickEnv) (rest : List TickEnv) (msg : String)
    (h : env.batchResult = .error msg) :
    getFeedsWorker parse st (env :: rest) = [[StoreCall.getNextFeeds 10]] := by
  simp [getFeedsWorker, getFeedsWorkerTick, h]

/-- Witness for C3 amended at the concrete failing environment `envBad`. -/
theorem c3_amended_batch_error_ends_loop_witness :
    envBad.batchResult = .error "db down" ∧
    getFeedsWorker noParse ⟨[], []⟩ [envBad, envSoloA] = [[StoreCall.getNextFeeds 10]] :=
  ⟨rfl, c3_amended_batch_error_ends_loop noParse ⟨[], []⟩ envBad [envSoloA] "db down" rfl⟩

/-- C4: evaluation of the post construction at the failing inputs.  A
publish date equal to the RFC1123Z reference date does yield exactly that
instant, but an empty publish date and an unparseable one both yield
`publishedAt = ⟨0, true⟩`: the zero time marked PRESENT (`Valid: true`),
because line 446 unconditionally overwrites the absence marking of lines
439-445 — not the claimed "no known publish time" absence. -/
theorem c4_published_at_always_valid :
    (mkCreatePostParams parseSample 777 1 itemGoodDate).publishedAt
        = ⟨1136239445000000000, true⟩ ∧
    (mkCreatePostParams parseSample 777 1 itemNoDate).publishedAt = ⟨0, true⟩ ∧
    (mkCreatePostParams parseSample 777 1 itemBadDate).publishedAt = ⟨0, true⟩ := by decide

/-- C5: the claim that tick k+1 never begins selecting its batch while a
task of tick k is unterminated fails on the code.  Failing input: the
`envAB` tick (two successful fetches, one result consumed) followed by the
`envB2` tick whose batch selects `feedB` again.  After tick k the `feedB`
task (index 1) still has its unconsumed send; tick k+1 nevertheless issues
its batch selection, and spawns a second task for `feedB` (3 task slots)
while the first `feedB` task is still pending — the same feed fetched
concurrently with itself. -/
theorem c5_next_tick_selects_while_tasks_pending :
    (getFeedsWorkerTick noParse ⟨[], []⟩ envAB).1.tasks.getD 1 [] ≠ [] ∧
    (getFeedsWorkerTick noParse (getFeedsWorkerTick noParse ⟨[], []⟩ envAB).1 envB2).2.1.head?
        = some (StoreCall.getNextFeeds 10) ∧
    (getFeedsWorkerTick noParse (getFeedsWorkerTick noParse ⟨[], []⟩ envAB).1 envB2).1.tasks.length
        = 3 ∧
    (getFeedsWorkerTick noParse (getFeedsWorkerTick noParse ⟨[], []⟩ envAB).1 envB2).1.tasks.getD 1 []
        ≠ [] := by decide

/-- C6: for every feed whose fetch fails in a tick, `last_fetched_at` is
unchanged after the tick (for any worker state, tick environment and Feed
Store state) — the worker indeed never writes it. -/
theorem c6_failed_fetch_last_fetched_unchanged (parse : String → Option Int)
    (st : WorkerState) (env : TickEnv) (s : StoreState) (f : Feed) (e : String)
    (_h : (env.fetch f.url).snd = some e) :
    (applyCalls s (getFeedsWorkerTick parse st env).2.1).lastFetchedAt f.id
      = s.lastFetchedAt f.id := by
  rw [tick_preserves_store]

/-- Witness for C6 at the concrete feed `feedFail`, whose fetch fails. -/
theorem c6_failed_fetch_last_fetched_unchanged_witness :
    (envFail.fetch feedFail.url).snd = some "unreachable" ∧
    (applyCalls store0 (getFeedsWorkerTick noParse ⟨[], []⟩ envFail).2.1).lastFetchedAt feedFail.id
      = store0.lastFetchedAt feedFail.id :=
  ⟨by decide,
   c6_failed_fetch_last_fetched_unchanged noParse ⟨[], []⟩ envFail store0 feedFail
     "unreachable" (by decide)⟩

/-- C7: entry-insertion failures are tolerated and skipped.  First: for
every document the ingestion loop attempts every entry exactly once, in
order, whatever the Post Store answers (so a failed — e.g. duplicate —
insertion never aborts the remaining entries).  Second: an entire tick is
insensitive to the insertion outcomes — two environments differing only in
the Post Store responses produce identical state, trace and loop decision,
so an insertion failure is never surfaced as a failure of the feed or of
the tick. -/
theorem c7_insert_failures_tolerated :
    (∀ (parse : String → Option Int) (now : Int) (fid : Nat)
        (o : CreatePostParams → Except String Unit) (items : List Item),
      ingestLoop parse now fid o items =
        items.map (fun it => StoreCall.createPost (mkCreatePostParams parse now fid it))) ∧
    (∀ (parse : String → Option Int) (st : WorkerState)
        (b : Except String (List Feed)) (f : String → FeedData × Option String)
        (o1 o2 : CreatePostParams → Except String Unit) (a : Arrival) (n : Int),
      getFeedsWorkerTick parse st ⟨b, f, o1, a, n⟩ =
        getFeedsWorkerTick parse st ⟨b, f, o2, a, n⟩) := by
  constructor
  · exact ingestLoop_eq_map
  · intro parse st b f o1 o2 a n
    unfold getFeedsWorkerTick
    simp only [ingestLoop_eq_map]

/-- C8: every post the worker builds has a null description: line 437
unconditionally overwrites the conditional assignment of lines 434-436
with the invalid `NullString`, for every parser, tick instant, feed and
item — even when the item carries a nonempty description. -/
theorem c8_description_always_null (parse : String → Option Int) (now : Int)
    (fid : Nat) (item : Item) :
    (mkCreatePostParams parse now fid item).descr = ⟨"", false⟩ := by
  unfold mkCreatePostParams
  split <;> split <;> split <;> rfl

/-- C9: a nonempty Authorization header with a single whitespace-separated
field — the concrete header `ApiKey` — makes the authentication wrapper
read `fields[1]` past the end of the fields slice: for every key-lookup
function the handler panics (`none`) instead of returning the 401
`unauthorized` response. -/
theorem c9_auth_single_field_panics (lookup : String → Option String) :
    middlewareAuth lookup "ApiKey" = none ∧ ("ApiKey" : String) ≠ "" :=
  ⟨rfl, by decide⟩

/-- C10: a per-feed task whose fetch fails sends twice: the error on
`errorChan` and then still the (stamped) document on `feedChan` — both
outcomes, not exactly one. -/
theorem c10_failed_fetch_sends_error_and_doc
    (fetch : String → FeedData × Option String) (f : Feed) (e : String)
    (h : (fetch f.url).snd = some e) :
    taskSends fetch f =
      [Msg.onErrorChan e, Msg.onFeedChan { (fetch f.url).fst with feedID := f.id }] := by
  simp [taskSends, h]

/-- Witness for C10 at the concrete feed `feedFail`, whose fetch fails. -/
theorem c10_failed_fetch_sends_error_and_doc_witness :
    (fetchAB feedFail.url).snd = some "unreachable" ∧
    taskSends fetchAB feedFail =
      [Msg.onErrorChan "unreachable",
       Msg.onFeedChan { (fetchAB feedFail.url).fst with feedID := feedFail.id }] :=
  ⟨by decide, c10_failed_fetch_sends_error_and_doc fetchAB feedFail "unreachable" (by decide)⟩
